import Mathlib

/-!
Shallow embedding of `src/chromium-websocket-wrapper.js`.

The source file contains two variants of the same wrapper, separated by a
document separator:
* variant A (first script): `messageChannel`, `imageChannel`,
  `channelResponseReceived`, `getWrappedProperty`, `setWrappedProperty`,
  the wrapper constructor and its prototype;
* variant B (second script): `onResponseReceived`, `fallthruGet`,
  `fallthruSet`, an inlined image probe, and a textually identical
  prototype.

`fallthruGet`/`fallthruSet` and the prototype methods of variant B are
textually identical to `getWrappedProperty`/`setWrappedProperty` and the
prototype methods of variant A, so they are embedded once and shared; the
two resolution callbacks (`channelResponseReceived` vs `onResponseReceived`)
differ and are embedded separately.
-/

namespace CWW

/-- Model of a JavaScript value as far as this program distinguishes them.
Functions are identified by an id; `boundFunc f w` models `f.bind(wrapper)`
where `w` is the wrapper's identity (calling `bind` on an already-bound
function does not change its receiver, which the model reflects by keeping
the original target). -/
inductive JSValue where
  | undefined
  | null
  | boolean (b : Bool)
  | number (n : Int)
  | string (s : String)
  | func (fid : Nat)
  | boundFunc (fid : Nat) (target : Nat)
deriving DecidableEq, Repr

/-- JavaScript truthiness for the modelled values (`if (v)`). -/
def JSValue.truthy : JSValue → Bool
  | .undefined => false
  | .null => false
  | .boolean b => b
  | .number n => n != 0
  | .string s => s != ""
  | .func _ => true
  | .boundFunc _ _ => true

/-- `v instanceof Function` for the modelled values (bound functions are
functions). -/
def JSValue.isFunction : JSValue → Bool
  | .func _ => true
  | .boundFunc _ _ => true
  | _ => false

/-- `value instanceof Function ? value.bind(wrapper) : value` — the binding
step shared by `setWrappedProperty`/`fallthruSet` and `addEventListener`. -/
def bindToWrapper (wrapperId : Nat) : JSValue → JSValue
  | .func fid => .boundFunc fid wrapperId
  | .boundFunc fid t => .boundFunc fid t
  | v => v

/-- An own-property table of a plain JS object, in insertion order.  For the
string keys this program ever stores (`binaryType`, `onclose`, `onerror`,
`onmessage`, `onopen`, `readyState` — none array-index-like), JS `for...in`
enumeration order is insertion order, which the list order encodes. -/
abbrev PropList := List (String × JSValue)

/-- Own-property lookup (`obj[k]` / `obj.hasOwnProperty(k)` support). -/
def getOwn : PropList → String → Option JSValue
  | [], _ => none
  | (k, v) :: rest, key => if k = key then some v else getOwn rest key

/-- Own-property write: updates in place if the key exists (JS keeps the
original insertion position), appends otherwise. -/
def setOwn : PropList → String → JSValue → PropList
  | [], key, value => [(key, value)]
  | (k, v) :: rest, key, value =>
      if k = key then (k, value) :: rest else (k, v) :: setOwn rest key value

/-- `obj.hasOwnProperty(k)`. -/
def hasOwn (ps : PropList) (key : String) : Bool :=
  (getOwn ps key).isSome

/-- One buffered `addEventListener` registration:
`{ev: ev, cb: cbb, fl: fl}` with `cbb` already bound to the wrapper. -/
structure Listener where
  ev : JSValue
  cb : JSValue
  fl : JSValue
deriving DecidableEq, Repr

/-- The pending-state record stored in the side table at construction:
`{args: {url, protocols}, listeners: [], properties: {}}`. -/
structure Bag where
  argsUrl : String
  argsProtocols : JSValue
  listeners : List Listener
  properties : PropList
deriving DecidableEq, Repr

/-- The bag as the constructor creates it. -/
def Bag.init (url : String) (protocols : JSValue) : Bag :=
  { argsUrl := url, argsProtocols := protocols, listeners := [], properties := [] }

/-- Model of a native `WebSocket` instance (`new Wrapped(url, protocols)`).
`url` and `readyState` are native read-only accessors; other writes land in
`assignedProps` (for the names this program assigns — `binaryType` and the
`on*` handlers — a native socket accepts the write and reads it back, which
`assignedProps` reflects).  `addedListeners` records
`wrapped.addEventListener` calls in order. -/
structure RealSocket where
  url : String
  protocols : JSValue
  readyState : Int
  assignedProps : PropList
  addedListeners : List Listener
deriving DecidableEq, Repr

/-- A freshly constructed native socket: CONNECTING (0), nothing assigned. -/
def mkRealSocket (url : String) (protocols : JSValue) : RealSocket :=
  { url := url, protocols := protocols, readyState := 0,
    assignedProps := [], addedListeners := [] }

/-- What a fresh native socket reports for each wrapped property name
(used when nothing was assigned): mirrors Chromium's defaults. -/
def nativeDefault (prop : String) : JSValue :=
  if prop = "binaryType" then .string "blob"
  else if prop = "bufferedAmount" then .number 0
  else if prop = "extensions" then .string ""
  else if prop = "protocol" then .string ""
  else if prop = "onclose" ∨ prop = "onerror" ∨ prop = "onmessage" ∨ prop = "onopen" then .null
  else .undefined

/-- `wrapped[prop]` on a native socket. -/
def RealSocket.get (s : RealSocket) (prop : String) : JSValue :=
  if prop = "url" then .string s.url
  else if prop = "readyState" then .number s.readyState
  else
    match getOwn s.assignedProps prop with
    | some v => v
    | none => nativeDefault prop

/-- `wrapped[prop] = value` on a native socket.  Only `binaryType` and the
`on*` handler names reach this in the program, all of which a native socket
accepts; the model records the write. -/
def RealSocket.set (s : RealSocket) (prop : String) (value : JSValue) : RealSocket :=
  { s with assignedProps := setOwn s.assignedProps prop value }

/-- `wrapped.addEventListener(ev, cb, fl)` on a native socket. -/
def RealSocket.addListener (s : RealSocket) (l : Listener) : RealSocket :=
  { s with addedListeners := s.addedListeners ++ [l] }

/-- What `map.get(wrapper)` (variant A) / `toWrapped.get(wrapper)`
(variant B) yields once set: the properties bag while pending or blocked,
the real socket once allowed. -/
inductive WrappedEntry where
  | bag (b : Bag)
  | real (s : RealSocket)
deriving DecidableEq, Repr

/-- Whether the side-table entry is a real socket (`wrapped instanceof Wrapped`). -/
def WrappedEntry.isReal : WrappedEntry → Bool
  | .bag _ => false
  | .real _ => true

/-- `getWrappedProperty(wrapper, prop, defaultValue)` (variant A), textually
identical to `fallthruGet` (variant B).  The `Option` mirrors
`map.get(wrapper)` possibly returning `undefined`. -/
def getWrappedProperty (entry : Option WrappedEntry) (prop : String)
    (defaultValue : JSValue) : JSValue :=
  match entry with
  | none => defaultValue
  | some (.real s) => s.get prop
  | some (.bag b) =>
      match getOwn b.properties prop with
      | some v => v
      | none => defaultValue

/-- `setWrappedProperty(wrapper, prop, value)` (variant A), textually
identical to `fallthruSet` (variant B). -/
def setWrappedProperty (wrapperId : Nat) (entry : Option WrappedEntry)
    (prop : String) (value : JSValue) : Option WrappedEntry :=
  let value := bindToWrapper wrapperId value
  match entry with
  | none => none
  | some (.real s) => some (.real (s.set prop value))
  | some (.bag b) => some (.bag { b with properties := setOwn b.properties prop value })

/-- The five wrapped properties whose defined setter forwards to
`setWrappedProperty`; the other five (`bufferedAmount`, `extensions`,
`protocol`, `readyState`, `url`) have `emptyFunction` / `noopfn` setters. -/
def forwardedSetter (prop : String) : Bool :=
  prop = "binaryType" ∨ prop = "onclose" ∨ prop = "onerror" ∨
    prop = "onmessage" ∨ prop = "onopen"

/-- The default value each wrapped property's getter passes to
`getWrappedProperty` in the `Object.defineProperties` block. -/
def definedDefault (prop : String) : JSValue :=
  if prop = "binaryType" then .string "blob"
  else if prop = "bufferedAmount" then .number 0
  else if prop = "extensions" then .string ""
  else if prop = "protocol" then .string ""
  else if prop = "url" then .string ""
  else if prop = "readyState" then .number 0
  else .null

/-- Reading one of the ten defined wrapper properties. -/
def proxyGet (entry : Option WrappedEntry) (prop : String) : JSValue :=
  getWrappedProperty entry prop (definedDefault prop)

/-- Writing one of the ten defined wrapper properties: forwards for the five
writable ones, is a no-op (`emptyFunction` setter) for the rest. -/
def proxySet (wrapperId : Nat) (entry : Option WrappedEntry)
    (prop : String) (value : JSValue) : Option WrappedEntry :=
  if forwardedSetter prop then setWrappedProperty wrapperId entry prop value
  else entry

/-- `WebSocket.prototype.addEventListener` (identical in both variants):
rejects non-functions, binds the callback, then either registers on the
real socket or pushes into the bag's listener list. -/
def proxyAddEventListener (wrapperId : Nat) (entry : Option WrappedEntry)
    (ev cb fl : JSValue) : Option WrappedEntry :=
  if cb.isFunction = false then entry
  else
    match entry with
    | none => entry
    | some (.real s) =>
        some (.real (s.addListener ⟨ev, bindToWrapper wrapperId cb, fl⟩))
    | some (.bag b) =>
        some (.bag { b with listeners := b.listeners ++ [⟨ev, bindToWrapper wrapperId cb, fl⟩] })

/-- Externally observable action performed by the wrapper code, in program
order. -/
inductive Action where
  /-- `bag.properties.onerror(new window.ErrorEvent('error'))`: invoking a
  buffered handler with a freshly made event of the given type. -/
  | invokeHandler (cb : JSValue) (eventType : String)
  /-- `console.error(ex)` / `console.error(ex.toString())`. -/
  | consoleError
  /-- `wrapped[p] = bag.properties[p]` during replay. -/
  | assignProp (prop : String) (v : JSValue)
  /-- `wrapped.addEventListener(l.ev, l.cb, l.fl)` during replay. -/
  | addListener (l : Listener)
  /-- `map.set(wrapper, wrapped)` / `toWrapped.set(wrapper, wrapped)`:
  the side-table entry switches to the real socket. -/
  | entrySwitched
  /-- `this.onload = this.onerror = null` on the probe image (variant B only). -/
  | clearImgHandlers
  /-- `new Wrapped(url, protocols)` succeeding in the mixed-content pre-check. -/
  | openSocket (url : String)
  /-- `ws.close()` on that transient socket. -/
  | closeSocket
  /-- `channel.sendMessage(url, this, channelResponseReceived)` (variant A) /
  starting the probe image load (variant B). -/
  | sendDecisionRequest (url : String)
deriving DecidableEq, Repr

/-- A model of `new Wrapped(url, protocols)`: `none` means the native
constructor threw. -/
abbrev WrappedCtor := String → JSValue → Option RealSocket

/-- The native constructor model that always succeeds with a fresh socket. -/
def plainCtor : WrappedCtor := fun url protocols => some (mkRealSocket url protocols)

/-- The native constructor model that always throws. -/
def throwingCtor : WrappedCtor := fun _ _ => none

/-- `for (var p in bag.properties) { wrapped[p] = bag.properties[p]; }` —
walks the bag's properties in enumeration order, assigning each onto the
real socket and emitting the corresponding actions. -/
def replayProps : RealSocket → PropList → RealSocket × List Action
  | ws, [] => (ws, [])
  | ws, (p, v) :: rest =>
      let (ws', acts) := replayProps (ws.set p v) rest
      (ws', Action.assignProp p v :: acts)

/-- `for (var i = 0, l; i < bag.listeners.length; i++) { ... }` — registers
each buffered listener on the real socket in order. -/
def replayListeners : RealSocket → List Listener → RealSocket × List Action
  | ws, [] => (ws, [])
  | ws, l :: rest =>
      let (ws', acts) := replayListeners (ws.addListener l) rest
      (ws', Action.addListener l :: acts)

/-- The `if (bag.properties.onerror) { bag.properties.onerror(new
window.ErrorEvent('error')); }` step shared by both block paths. -/
def blockedErrorActions (bag : Bag) : List Action :=
  match getOwn bag.properties "onerror" with
  | some cb => if cb.truthy then [Action.invokeHandler cb "error"] else []
  | none => []

/-- The shared allow path of both resolution callbacks: try to construct the
real socket; on throw log and keep the bag; on success replay properties,
then listeners, then switch the side-table entry. -/
def allowPath (ctor : WrappedCtor) (bag : Bag) : WrappedEntry × List Action :=
  match ctor bag.argsUrl bag.argsProtocols with
  | none => (.bag bag, [Action.consoleError])
  | some ws =>
      let (ws1, propActs) := replayProps ws bag.properties
      let (ws2, listActs) := replayListeners ws1 bag.listeners
      (.real ws2, propActs ++ listActs ++ [Action.entrySwitched])

/-- Variant A's `channelResponseReceived(wrapper, blockConnection)`: on
block, fire a buffered `onerror` and force `bag.properties.readyState` to
`WebSocket.CLOSED` (3); on allow, run the allow path. -/
def channelResponseReceived (ctor : WrappedCtor) (bag : Bag)
    (blockConnection : Bool) : WrappedEntry × List Action :=
  if blockConnection then
    (.bag { bag with properties := setOwn bag.properties "readyState" (.number 3) },
      blockedErrorActions bag)
  else
    allowPath ctor bag

/-- Variant B's `onResponseReceived(wrapper, ok)`: first clears the probe
image's handlers; on `!ok`, fires a buffered `onerror` and returns (the bag
— `readyState` included — is left untouched); on `ok`, runs the allow path. -/
def onResponseReceived (ctor : WrappedCtor) (bag : Bag)
    (ok : Bool) : WrappedEntry × List Action :=
  if ok = false then
    (.bag bag, Action.clearImgHandlers :: blockedErrorActions bag)
  else
    let (entry, acts) := allowPath ctor bag
    (entry, Action.clearImgHandlers :: acts)

/-! ## The signal channel (`messageChannel`, variant A) -/

/-- `DIRECTION_OUT` — the tag replies from the content script carry. -/
def DIRECTION_OUT : String := "to-page-script@websocket-blocker"

/-- `DIRECTION_IN` — the tag the page script puts on outbound requests. -/
def DIRECTION_IN : String := "from-page-script@websocket-blocker"

/-- One entry of `requestsMap`: `{wrapper: wrapper, onResponseReceived:
onResponseReceived}`, with both modelled by identities. -/
structure RequestData where
  wrapperId : Nat
  callbackId : Nat
deriving DecidableEq, Repr

/-- The channel's mutable state: `currentRequestId` and `requestsMap`
(a JS object keyed by request id, so keys are unique). -/
structure ChannelState where
  currentRequestId : Nat
  requestsMap : List (Nat × RequestData)
deriving DecidableEq, Repr

/-- `requestsMap[id]`. -/
def lookupRequest : List (Nat × RequestData) → Nat → Option RequestData
  | [], _ => none
  | (k, v) :: rest, key => if k = key then some v else lookupRequest rest key

/-- `delete requestsMap[id]`. -/
def deleteRequest : List (Nat × RequestData) → Nat → List (Nat × RequestData)
  | [], _ => []
  | (k, v) :: rest, key =>
      if k = key then deleteRequest rest key else (k, v) :: deleteRequest rest key

/-- The data of an incoming `message` event; `direction = ""` models a
falsy `event.data.direction`. -/
structure MessageData where
  direction : String
  requestId : Nat
  block : Bool
deriving DecidableEq, Repr

/-- An invocation of a stored callback:
`requestData.onResponseReceived(wrapper, event.data.block)`. -/
structure Invocation where
  callbackId : Nat
  wrapperId : Nat
  block : Bool
deriving DecidableEq, Repr

/-- `onMessageReceived(event)`: ignores events without the exact reply tag;
otherwise looks up the correlation id, invokes the stored callback and
deletes the entry.  `data = none` models a falsy `event.data`. -/
def onMessageReceived (st : ChannelState) (data : Option MessageData) :
    ChannelState × List Invocation :=
  match data with
  | none => (st, [])
  | some d =>
      if d.direction = "" ∨ d.direction ≠ DIRECTION_OUT then (st, [])
      else
        match lookupRequest st.requestsMap d.requestId with
        | none => (st, [])
        | some rd =>
            ({ st with requestsMap := deleteRequest st.requestsMap d.requestId },
              [⟨rd.callbackId, rd.wrapperId, d.block⟩])

/-- The outbound request `messageChannel.sendMessage` posts. -/
structure OutboundMessage where
  requestId : Nat
  direction : String
  elementUrl : String
  documentUrl : String
deriving DecidableEq, Repr

/-- `messageChannel.sendMessage(url, wrapper, onResponseReceived)`: bumps
the id, stores the request data, posts the tagged message. -/
def sendMessage (st : ChannelState) (url : String) (documentUrl : String)
    (wrapperId callbackId : Nat) : ChannelState × OutboundMessage :=
  let requestId := st.currentRequestId + 1
  ({ currentRequestId := requestId,
     requestsMap := st.requestsMap ++ [(requestId, ⟨wrapperId, callbackId⟩)] },
   { requestId := requestId, direction := DIRECTION_IN,
     elementUrl := url, documentUrl := documentUrl })

/-! ## The image probe channel, both variants -/

/-- The outcome of the probe image load. -/
inductive LoadOutcome where
  | success
  | error
deriving DecidableEq, Repr

/-- Variant A (`imageChannel.sendMessage`): `img.onload =
onResponseReceived.bind(img, wrapper, false)` and `img.onerror = ...(wrapper,
true)` — the boolean handed to the resolution callback, read as
`blockConnection`. -/
def imageChannelFlagA : LoadOutcome → Bool
  | .success => false
  | .error => true

/-- Variant B (inlined in its constructor): `img.onload =
onResponseReceived.bind(img, this, true)` and `img.onerror = ...(this,
false)` — the boolean handed to the resolution callback, read as `ok`. -/
def imageProbeFlagB : LoadOutcome → Bool
  | .success => true
  | .error => false

/-! ## The wrapper constructor -/

/-- `url.lastIndexOf('ws:', 0)`: the last occurrence starting at an index
`≤ 0`, i.e. `0` when `url` starts with the pattern and `-1` otherwise. -/
def jsLastIndexOfAtZero (s pat : String) : Int :=
  if pat.data.isPrefixOf s.data then 0 else -1

/-- The one way the embedded constructor can throw: the un-guarded
`new Wrapped(url, protocols)` of the mixed-content pre-check. -/
inductive JsException where
  | wrappedCtorThrow
deriving DecidableEq, Repr

/-- The wrapper constructor body (identical in both variants): mixed-content
pre-check (open-and-close a transient real socket — `new` never yields a
falsy value, so `if (ws)` passes whenever construction did not throw), then
property definitions (no external effect), then the side-table entry, then
the decision request.  The pre-check's `new Wrapped` is not wrapped in
`try`/`catch`, so its exception propagates as `Except.error`. -/
def wsConstructor (ctor : WrappedCtor) (locationProtocol : String)
    (url : String) (protocols : JSValue) :
    Except JsException (Bag × List Action) :=
  if locationProtocol = "https:" ∧ jsLastIndexOfAtZero url "ws:" = 0 then
    match ctor url protocols with
    | none => .error .wrappedCtorThrow
    | some _ =>
        .ok (Bag.init url protocols,
          [.openSocket url, .closeSocket, .sendDecisionRequest url])
  else
    .ok (Bag.init url protocols, [.sendDecisionRequest url])

instance {ε α : Type} [DecidableEq ε] [DecidableEq α] : DecidableEq (Except ε α) := fun a b =>
  match a, b with
  | .error e, .error f =>
      if h : e = f then isTrue (congrArg Except.error h)
      else isFalse fun hh => h (Except.error.inj hh)
  | .ok x, .ok y =>
      if h : x = y then isTrue (congrArg Except.ok h)
      else isFalse fun hh => h (Except.ok.inj hh)
  | .error _, .ok _ => isFalse Except.noConfusion
  | .ok _, .error _ => isFalse Except.noConfusion

/-- Variant B end to end: construct the wrapper, then resolve it with the
probe image's outcome. -/
def runImageFlowB (ctor : WrappedCtor) (locationProtocol : String)
    (url : String) (protocols : JSValue) (o : LoadOutcome) :
    Except JsException (WrappedEntry × List Action) :=
  match wsConstructor ctor locationProtocol url protocols with
  | .error e => .error e
  | .ok (bag, acts) =>
      .ok ((onResponseReceived ctor bag (imageProbeFlagB o)).1,
        acts ++ (onResponseReceived ctor bag (imageProbeFlagB o)).2)

/-! ## Page-script operations on a wrapper between construction and resolution -/

/-- One page-script interaction with the wrapper: a write to one of the ten
defined properties, or an `addEventListener` call. -/
inductive ProxyOp where
  | write (prop : String) (v : JSValue)
  | addEv (ev cb fl : JSValue)
deriving DecidableEq, Repr

/-- Apply one page-script operation to the wrapper's side-table entry. -/
def applyOp (wid : Nat) (e : Option WrappedEntry) : ProxyOp → Option WrappedEntry
  | .write p v => proxySet wid e p v
  | .addEv ev cb fl => proxyAddEventListener wid e ev cb fl

/-- Apply a sequence of page-script operations in order. -/
def applyOps (wid : Nat) : Option WrappedEntry → List ProxyOp → Option WrappedEntry
  | e, [] => e
  | e, op :: ops => applyOps wid (applyOp wid e op) ops

/-! ## The probe request URL (`imageChannel.sendMessage` / variant B inline) -/

/-- Uppercase hexadecimal digit, as `encodeURIComponent` produces. -/
def hexDigit (n : Nat) : Char :=
  if n < 10 then Char.ofNat (48 + n) else Char.ofNat (55 + n)

/-- `%XX` for one octet. -/
def pctEncodeByte (b : Nat) : String :=
  String.mk [Char.ofNat 37, hexDigit (b / 16), hexDigit (b % 16)]

/-- The code points `encodeURIComponent` leaves unescaped:
`A–Z a–z 0–9 - _ . ! ~ * ' ( )` (codes 45 46 95 126 33 42 39 40 41). -/
def uriUnreservedCode (n : Nat) : Bool :=
  decide ((65 ≤ n ∧ n ≤ 90) ∨ (97 ≤ n ∧ n ≤ 122) ∨ (48 ≤ n ∧ n ≤ 57) ∨
    n = 45 ∨ n = 46 ∨ n = 95 ∨ n = 126 ∨ n = 33 ∨ n = 42 ∨ n = 39 ∨ n = 40 ∨ n = 41)

/-- UTF-8 octets of a code point. -/
def utf8Bytes (n : Nat) : List Nat :=
  if n < 128 then [n]
  else if n < 2048 then [192 + n / 64, 128 + n % 64]
  else if n < 65536 then [224 + n / 4096, 128 + (n / 64) % 64, 128 + n % 64]
  else [240 + n / 262144, 128 + (n / 4096) % 64, 128 + (n / 64) % 64, 128 + n % 64]

/-- Percent-encode a whole octet sequence. -/
def pctList : List Nat → String
  | [] => ""
  | b :: bs => pctEncodeByte b ++ pctList bs

/-- One character's contribution to `encodeURIComponent`'s result: itself if
unreserved, otherwise its percent-encoded UTF-8 octets (ECMA-262's Encode
operation, which the source calls as the builtin `encodeURIComponent`). -/
def encChar (c : Char) : String :=
  if uriUnreservedCode c.toNat then String.singleton c
  else pctList (utf8Bytes c.toNat)

/-- `encodeURIComponent`, character by character. -/
def encodeURIComponentAux : List Char → String
  | [] => ""
  | c :: cs => encChar c ++ encodeURIComponentAux cs

/-- The builtin `encodeURIComponent(url)`. -/
def encodeURIComponent (s : String) : String :=
  encodeURIComponentAux s.data

/-- The probe image URL the source builds:
`window.location.origin + '?url=' + encodeURIComponent(url) +
'&ubofix=f41665f3028c7fd10eecf573336216d3'` (identical expression in
`imageChannel.sendMessage` and in variant B's constructor). -/
def probeUrl (origin url : String) : String :=
  origin ++ "?url=" ++ encodeURIComponent url ++ "&ubofix=f41665f3028c7fd10eecf573336216d3"

/-- Modelled from the spec: a URL-encoder written at octet level — each
UTF-8 octet of the target either kept (unreserved) or percent-encoded. -/
def specEncodeBytes : List Nat → String
  | [] => ""
  | b :: bs =>
      (if uriUnreservedCode b then String.singleton (Char.ofNat b) else pctEncodeByte b) ++
        specEncodeBytes bs

/-- Modelled from the spec: "the URL-encoded target URL" over the target's
UTF-8 octet sequence. -/
def specUrlEncode (s : String) : String :=
  specEncodeBytes (List.flatten (s.data.map fun c => utf8Bytes c.toNat))

/-- Modelled from the spec (§6): "an HTTP GET to
`<page origin>/?url=<url-encoded target>&ubofix=<fixed disambiguation
token>`" — origin, then `/?url=`, then the encoded target, then `&ubofix=`,
then the token. -/
def specProbeUrl (origin url : String) : String :=
  origin ++ "/?url=" ++ specUrlEncode url ++ "&ubofix=" ++ "f41665f3028c7fd10eecf573336216d3"

/-- The spec's probe URL amended as the counterexample forces: the page
origin is followed directly by `?url=` (the built string has no path
slash). -/
def specProbeUrlAmended (origin url : String) : String :=
  origin ++ "?url=" ++ specUrlEncode url ++ "&ubofix=" ++ "f41665f3028c7fd10eecf573336216d3"

/-! ## Concrete sample data for witnesses -/

/-- A wrapper bag as reached after buffering one `onerror` handler (bound to
wrapper 0), one `binaryType` write, and one `message` listener. -/
def sampleBag : Bag :=
  { argsUrl := "ws://example.com/socket", argsProtocols := .undefined,
    listeners := [⟨.string "message", .boundFunc 3 0, .boolean false⟩],
    properties := [("onerror", .boundFunc 7 0), ("binaryType", .string "arraybuffer")] }

/-! ## Property-table lemmas -/

theorem getOwn_setOwn_self (ps : PropList) (k : String) (v : JSValue) :
    getOwn (setOwn ps k v) k = some v := by
  induction ps with
  | nil => simp [setOwn, getOwn]
  | cons hd tl ih =>
      obtain ⟨k', v'⟩ := hd
      by_cases h : k' = k <;> simp [setOwn, getOwn, h, ih]

theorem getOwn_setOwn_ne (ps : PropList) {k k' : String} (v : JSValue) (h : k' ≠ k) :
    getOwn (setOwn ps k' v) k = getOwn ps k := by
  induction ps with
  | nil => simp [setOwn, getOwn, h]
  | cons hd tl ih =>
      obtain ⟨k₀, v₀⟩ := hd
      by_cases h0 : k₀ = k' <;> by_cases h1 : k₀ = k <;>
        simp_all [setOwn, getOwn]

theorem lookupRequest_deleteRequest_self (m : List (Nat × RequestData)) (k : Nat) :
    lookupRequest (deleteRequest m k) k = none := by
  induction m with
  | nil => simp [deleteRequest, lookupRequest]
  | cons hd tl ih =>
      obtain ⟨k', v'⟩ := hd
      by_cases h : k' = k <;> simp [deleteRequest, lookupRequest, h, ih]

/-! ## Replay lemmas -/

theorem replayProps_snd (ps : PropList) : ∀ ws : RealSocket,
    (replayProps ws ps).2 = ps.map fun pv => Action.assignProp pv.1 pv.2 := by
  induction ps with
  | nil => intro ws; simp [replayProps]
  | cons hd tl ih =>
      intro ws
      obtain ⟨p, v⟩ := hd
      simp [replayProps, ih]

theorem replayListeners_snd (ls : List Listener) : ∀ ws : RealSocket,
    (replayListeners ws ls).2 = ls.map Action.addListener := by
  induction ls with
  | nil => intro ws; simp [replayListeners]
  | cons hd tl ih => intro ws; simp [replayListeners, ih]

theorem replayProps_fst_url (ps : PropList) : ∀ ws : RealSocket,
    (replayProps ws ps).1.url = ws.url := by
  induction ps with
  | nil => intro ws; simp [replayProps]
  | cons hd tl ih =>
      intro ws
      obtain ⟨p, v⟩ := hd
      simp [replayProps, ih, RealSocket.set]

theorem replayListeners_fst_url (ls : List Listener) : ∀ ws : RealSocket,
    (replayListeners ws ls).1.url = ws.url := by
  induction ls with
  | nil => intro ws; simp [replayListeners]
  | cons hd tl ih => intro ws; simp [replayListeners, ih, RealSocket.addListener]

/-! ## Encoder lemmas: the per-character encoder agrees with the spec's
per-octet reading -/

theorem uriUnreservedCode_lt {n : Nat} (h : uriUnreservedCode n = true) : n < 128 := by
  simp [uriUnreservedCode] at h
  omega

theorem uriUnreservedCode_of_ge (n : Nat) (h : 128 ≤ n) : uriUnreservedCode n = false := by
  simp [uriUnreservedCode]
  omega

theorem utf8Bytes_small {n : Nat} (h : n < 128) : utf8Bytes n = [n] := by
  simp [utf8Bytes, h]

theorem utf8Bytes_large {n : Nat} (h : 128 ≤ n) : ∀ b ∈ utf8Bytes n, 128 ≤ b := by
  intro b hb
  unfold utf8Bytes at hb
  split_ifs at hb <;> simp at hb <;> omega

theorem specEncodeBytes_of_large (bs : List Nat) (h : ∀ b ∈ bs, 128 ≤ b) :
    specEncodeBytes bs = pctList bs := by
  induction bs with
  | nil => rfl
  | cons b rest ih =>
      have hb : 128 ≤ b := h b (by simp)
      rw [specEncodeBytes, pctList, if_neg (by simp [uriUnreservedCode_of_ge b hb]),
        ih fun x hx => h x (by simp [hx])]

theorem encChar_eq_specEncodeBytes (c : Char) :
    encChar c = specEncodeBytes (utf8Bytes c.toNat) := by
  by_cases h : uriUnreservedCode c.toNat = true
  · rw [encChar, if_pos h, utf8Bytes_small (uriUnreservedCode_lt h)]
    simp [specEncodeBytes, h, Char.ofNat_toNat, String.append_empty]
  · have h' : uriUnreservedCode c.toNat = false := by
      cases hx : uriUnreservedCode c.toNat
      · rfl
      · exact absurd hx h
    rw [encChar, if_neg h]
    by_cases h2 : c.toNat < 128
    · rw [utf8Bytes_small h2]
      simp [specEncodeBytes, pctList, h', String.append_empty]
    · exact (specEncodeBytes_of_large _ (utf8Bytes_large (by omega))).symm

theorem specEncodeBytes_append (xs ys : List Nat) :
    specEncodeBytes (xs ++ ys) = specEncodeBytes xs ++ specEncodeBytes ys := by
  induction xs with
  | nil => simp [specEncodeBytes, String.empty_append]
  | cons b rest ih => simp [specEncodeBytes, ih, String.append_assoc]

theorem encodeURIComponentAux_eq (l : List Char) :
    encodeURIComponentAux l
      = specEncodeBytes (List.flatten (l.map fun c => utf8Bytes c.toNat)) := by
  induction l with
  | nil => rfl
  | cons c cs ih =>
      simp [encodeURIComponentAux, specEncodeBytes_append, encChar_eq_specEncodeBytes, ih]

theorem encodeURIComponent_eq_specUrlEncode (s : String) :
    encodeURIComponent s = specUrlEncode s :=
  encodeURIComponentAux_eq s.data

/-! ## Pending-state invariants under page-script operations -/

theorem forwardedSetter_ne {p k : String} (hp : forwardedSetter p = true)
    (hk : forwardedSetter k = false) : p ≠ k := by
  intro h
  subst h
  rw [hp] at hk
  exact Bool.noConfusion hk

/-- Any single page-script operation keeps a pending entry pending, leaves
its constructor arguments alone, and cannot touch a property whose defined
setter is a no-op. -/
theorem applyOp_bag (wid : Nat) (b : Bag) (op : ProxyOp) {k : String}
    (hk : forwardedSetter k = false) :
    ∃ b', applyOp wid (some (.bag b)) op = some (.bag b') ∧
      getOwn b'.properties k = getOwn b.properties k ∧
      b'.argsUrl = b.argsUrl ∧ b'.argsProtocols = b.argsProtocols := by
  cases op with
  | write p v =>
      by_cases hf : forwardedSetter p
      · refine ⟨{ b with properties := setOwn b.properties p (bindToWrapper wid v) }, ?_, ?_, rfl, rfl⟩
        · simp [applyOp, proxySet, hf, setWrappedProperty]
        · exact getOwn_setOwn_ne _ _ (forwardedSetter_ne hf hk)
      · exact ⟨b, by simp [applyOp, proxySet, hf], rfl, rfl, rfl⟩
  | addEv ev cb fl =>
      by_cases hf : cb.isFunction = false
      · exact ⟨b, by simp [applyOp, proxyAddEventListener, hf], rfl, rfl, rfl⟩
      · refine ⟨{ b with listeners := b.listeners ++ [⟨ev, bindToWrapper wid cb, fl⟩] }, ?_, rfl, rfl, rfl⟩
        simp [applyOp, proxyAddEventListener, hf]

/-- `applyOp_bag`, iterated over a whole operation sequence. -/
theorem applyOps_bag (wid : Nat) (ops : List ProxyOp) {k : String}
    (hk : forwardedSetter k = false) : ∀ b : Bag,
    ∃ b', applyOps wid (some (.bag b)) ops = some (.bag b') ∧
      getOwn b'.properties k = getOwn b.properties k ∧
      b'.argsUrl = b.argsUrl ∧ b'.argsProtocols = b.argsProtocols := by
  induction ops with
  | nil => intro b; exact ⟨b, rfl, rfl, rfl, rfl⟩
  | cons op ops ih =>
      intro b
      obtain ⟨b1, h1, h2, h3, h4⟩ := applyOp_bag wid b op hk
      obtain ⟨b', h1', h2', h3', h4'⟩ := ih b1
      refine ⟨b', ?_, ?_, ?_, ?_⟩
      · simpa [applyOps, h1] using h1'
      · rw [h2', h2]
      · rw [h3', h3]
      · rw [h4', h4]

/-! ## Claim theorems -/

/-- Claim C2: when a proxy is resolved as allowed and real-socket
construction succeeds, every buffered property is assigned onto the real
socket in insertion order, then every buffered listener registration is
replayed in insertion order, and only then does the side-table entry switch
to the real socket — in both variants (variant B first clears the probe
image's handlers). -/
theorem allow_replay_order (ctor : WrappedCtor) (bag : Bag) (ws : RealSocket)
    (h : ctor bag.argsUrl bag.argsProtocols = some ws) :
    (channelResponseReceived ctor bag false).2
      = (bag.properties.map fun pv => Action.assignProp pv.1 pv.2)
        ++ bag.listeners.map Action.addListener ++ [Action.entrySwitched] ∧
    (channelResponseReceived ctor bag false).1.isReal = true ∧
    (onResponseReceived ctor bag true).2
      = Action.clearImgHandlers ::
        ((bag.properties.map fun pv => Action.assignProp pv.1 pv.2)
          ++ bag.listeners.map Action.addListener ++ [Action.entrySwitched]) ∧
    (onResponseReceived ctor bag true).1 = (channelResponseReceived ctor bag false).1 := by
  unfold channelResponseReceived onResponseReceived allowPath
  simp [h, replayProps_snd, replayListeners_snd, WrappedEntry.isReal]

/-- Witness for C2 at a concrete bag with one property and one listener. -/
theorem allow_replay_order_witness :
    plainCtor sampleBag.argsUrl sampleBag.argsProtocols
        = some (mkRealSocket "ws://example.com/socket" .undefined) ∧
    ((channelResponseReceived plainCtor sampleBag false).2
        = (sampleBag.properties.map fun pv => Action.assignProp pv.1 pv.2)
          ++ sampleBag.listeners.map Action.addListener ++ [Action.entrySwitched] ∧
      (channelResponseReceived plainCtor sampleBag false).1.isReal = true ∧
      (onResponseReceived plainCtor sampleBag true).2
        = Action.clearImgHandlers ::
          ((sampleBag.properties.map fun pv => Action.assignProp pv.1 pv.2)
            ++ sampleBag.listeners.map Action.addListener ++ [Action.entrySwitched]) ∧
      (onResponseReceived plainCtor sampleBag true).1
        = (channelResponseReceived plainCtor sampleBag false).1) :=
  ⟨rfl, allow_replay_order plainCtor sampleBag _ rfl⟩

/-- Claim C4: both image-probe variants map load-success to allow (a real
socket is constructed) and load-error to block, while handing their
resolution callbacks booleans of opposite polarity. -/
theorem image_probe_polarity_equiv (ctor : WrappedCtor) (bag : Bag) (ws : RealSocket)
    (o : LoadOutcome) (h : ctor bag.argsUrl bag.argsProtocols = some ws) :
    imageChannelFlagA o = !imageProbeFlagB o ∧
    ((channelResponseReceived ctor bag (imageChannelFlagA o)).1.isReal = true
        ↔ o = LoadOutcome.success) ∧
    ((onResponseReceived ctor bag (imageProbeFlagB o)).1.isReal = true
        ↔ o = LoadOutcome.success) := by
  cases o <;>
    simp [imageChannelFlagA, imageProbeFlagB, channelResponseReceived, onResponseReceived,
      allowPath, h, WrappedEntry.isReal]

/-- Witness for C4 at the block outcome. -/
theorem image_probe_polarity_equiv_witness :
    plainCtor sampleBag.argsUrl sampleBag.argsProtocols
        = some (mkRealSocket "ws://example.com/socket" .undefined) ∧
    (imageChannelFlagA LoadOutcome.error = !imageProbeFlagB LoadOutcome.error ∧
      ((channelResponseReceived plainCtor sampleBag (imageChannelFlagA LoadOutcome.error)).1.isReal = true
          ↔ LoadOutcome.error = LoadOutcome.success) ∧
      ((onResponseReceived plainCtor sampleBag (imageProbeFlagB LoadOutcome.error)).1.isReal = true
          ↔ LoadOutcome.error = LoadOutcome.success)) :=
  ⟨rfl, image_probe_polarity_equiv plainCtor sampleBag _ LoadOutcome.error rfl⟩

/-- Claim C5: once a signal-channel reply for a correlation id has been
delivered, the entry is deleted, so a second message carrying the same id
invokes nothing and leaves the map unchanged. -/
theorem signal_reply_at_most_once (st : ChannelState) (d : MessageData) (rd : RequestData)
    (hdir : d.direction = DIRECTION_OUT)
    (hlk : lookupRequest st.requestsMap d.requestId = some rd) :
    (onMessageReceived st (some d)).2 = [⟨rd.callbackId, rd.wrapperId, d.block⟩] ∧
    lookupRequest (onMessageReceived st (some d)).1.requestsMap d.requestId = none ∧
    ∀ d2 : MessageData, d2.requestId = d.requestId →
      onMessageReceived (onMessageReceived st (some d)).1 (some d2)
        = ((onMessageReceived st (some d)).1, []) := by
  have hcond : ¬(d.direction = "" ∨ d.direction ≠ DIRECTION_OUT) := by
    rw [hdir]
    simp [DIRECTION_OUT]
  have h1 : onMessageReceived st (some d)
      = ({ st with requestsMap := deleteRequest st.requestsMap d.requestId },
          [⟨rd.callbackId, rd.wrapperId, d.block⟩]) := by
    simp only [onMessageReceived]
    rw [if_neg hcond, hlk]
  rw [h1]
  refine ⟨rfl, lookupRequest_deleteRequest_self st.requestsMap d.requestId, ?_⟩
  intro d2 hd2
  show onMessageReceived { st with requestsMap := deleteRequest st.requestsMap d.requestId }
      (some d2)
    = ({ st with requestsMap := deleteRequest st.requestsMap d.requestId }, [])
  simp only [onMessageReceived]
  by_cases hc : d2.direction = "" ∨ d2.direction ≠ DIRECTION_OUT
  · rw [if_pos hc]
  · rw [if_neg hc, hd2, lookupRequest_deleteRequest_self]

/-- Witness for C5: one pending request, a valid reply, then a duplicate. -/
theorem signal_reply_at_most_once_witness :
    (⟨DIRECTION_OUT, 1, true⟩ : MessageData).direction = DIRECTION_OUT ∧
    lookupRequest (ChannelState.mk 1 [(1, ⟨5, 9⟩)]).requestsMap 1 = some ⟨5, 9⟩ ∧
    ((onMessageReceived ⟨1, [(1, ⟨5, 9⟩)]⟩ (some ⟨DIRECTION_OUT, 1, true⟩)).2
        = [⟨9, 5, true⟩] ∧
      lookupRequest (onMessageReceived ⟨1, [(1, ⟨5, 9⟩)]⟩
          (some ⟨DIRECTION_OUT, 1, true⟩)).1.requestsMap 1 = none ∧
      ∀ d2 : MessageData, d2.requestId = 1 →
        onMessageReceived (onMessageReceived ⟨1, [(1, ⟨5, 9⟩)]⟩
            (some ⟨DIRECTION_OUT, 1, true⟩)).1 (some d2)
          = ((onMessageReceived ⟨1, [(1, ⟨5, 9⟩)]⟩ (some ⟨DIRECTION_OUT, 1, true⟩)).1, [])) :=
  ⟨rfl, rfl, signal_reply_at_most_once ⟨1, [(1, ⟨5, 9⟩)]⟩ ⟨DIRECTION_OUT, 1, true⟩ ⟨5, 9⟩ rfl rfl⟩

/-- Claim C6: if real-socket construction throws during an allow
resolution, the exception is logged and nothing else changes — the
side-table entry still maps the proxy to its bag and no replay happens, in
both variants. -/
theorem allow_ctor_throw_inert (ctor : WrappedCtor) (bag : Bag)
    (h : ctor bag.argsUrl bag.argsProtocols = none) :
    channelResponseReceived ctor bag false = (.bag bag, [Action.consoleError]) ∧
    onResponseReceived ctor bag true
      = (.bag bag, [Action.clearImgHandlers, Action.consoleError]) := by
  unfold channelResponseReceived onResponseReceived allowPath
  simp [h]

/-- Witness for C6 with a throwing native constructor. -/
theorem allow_ctor_throw_inert_witness :
    throwingCtor sampleBag.argsUrl sampleBag.argsProtocols = none ∧
    (channelResponseReceived throwingCtor sampleBag false
        = (.bag sampleBag, [Action.consoleError]) ∧
      onResponseReceived throwingCtor sampleBag true
        = (.bag sampleBag, [Action.clearImgHandlers, Action.consoleError])) :=
  ⟨rfl, allow_ctor_throw_inert throwingCtor sampleBag rfl⟩

/-- Claim C7: on an https: page, a url beginning with "ws:" makes the
constructor open one real socket to that url and immediately close it,
before the decision request is dispatched, whatever the probe outcome later
is. -/
theorem mixed_content_precheck (ctor : WrappedCtor) (url : String) (protocols : JSValue)
    (ws : RealSocket) (o : LoadOutcome)
    (hctor : ctor url protocols = some ws)
    (hws : jsLastIndexOfAtZero url "ws:" = 0) :
    wsConstructor ctor "https:" url protocols
      = .ok (Bag.init url protocols,
          [.openSocket url, .closeSocket, .sendDecisionRequest url]) ∧
    ∃ entry rest, runImageFlowB ctor "https:" url protocols o
      = .ok (entry,
          Action.openSocket url :: Action.closeSocket ::
            Action.sendDecisionRequest url :: rest) := by
  have h1 : wsConstructor ctor "https:" url protocols
      = .ok (Bag.init url protocols,
          [.openSocket url, .closeSocket, .sendDecisionRequest url]) := by
    unfold wsConstructor
    rw [if_pos ⟨rfl, hws⟩, hctor]
  refine ⟨h1, ?_⟩
  unfold runImageFlowB
  rw [h1]
  exact ⟨_, _, rfl⟩

/-- Witness for C7: secure page, insecure target, block outcome. -/
theorem mixed_content_precheck_witness :
    plainCtor "ws://insecure.example/x" JSValue.undefined
        = some (mkRealSocket "ws://insecure.example/x" JSValue.undefined) ∧
    jsLastIndexOfAtZero "ws://insecure.example/x" "ws:" = 0 ∧
    (wsConstructor plainCtor "https:" "ws://insecure.example/x" JSValue.undefined
        = .ok (Bag.init "ws://insecure.example/x" JSValue.undefined,
            [.openSocket "ws://insecure.example/x", .closeSocket,
              .sendDecisionRequest "ws://insecure.example/x"]) ∧
      ∃ entry rest,
        runImageFlowB plainCtor "https:" "ws://insecure.example/x" JSValue.undefined
            LoadOutcome.error
          = .ok (entry,
              Action.openSocket "ws://insecure.example/x" :: Action.closeSocket ::
                Action.sendDecisionRequest "ws://insecure.example/x" :: rest)) :=
  ⟨rfl, by decide,
    mixed_content_precheck plainCtor "ws://insecure.example/x" JSValue.undefined _
      LoadOutcome.error rfl (by decide)⟩

/-- Claim C9: however the page script writes properties or adds listeners
while the proxy is pending, the url accessor reads the empty string, still
does so after a blocked resolution in either variant, and reports the
constructor's url argument only once an allow resolution has constructed
the real socket. -/
theorem url_accessor_only_after_allow (wid : Nat) (url : String) (protocols : JSValue)
    (ops : List ProxyOp) (ctor : WrappedCtor) :
    ∃ b : Bag,
      applyOps wid (some (.bag (Bag.init url protocols))) ops = some (.bag b) ∧
      proxyGet (some (.bag b)) "url" = .string "" ∧
      proxyGet (some (channelResponseReceived ctor b true).1) "url" = .string "" ∧
      proxyGet (some (onResponseReceived ctor b false).1) "url" = .string "" ∧
      proxyGet (some (channelResponseReceived plainCtor b false).1) "url" = .string url := by
  obtain ⟨b, hb, hkey, hurl, hproto⟩ :=
    applyOps_bag wid ops (k := "url") (by decide) (Bag.init url protocols)
  have hnone : getOwn b.properties "url" = none := by
    rw [hkey]
    rfl
  have hblocked : getOwn (setOwn b.properties "readyState" (.number 3)) "url" = none := by
    rw [getOwn_setOwn_ne _ _ (by decide), hnone]
  refine ⟨b, hb, ?_, ?_, ?_, ?_⟩
  · simp [proxyGet, getWrappedProperty, hnone, definedDefault]
  · simp [channelResponseReceived, proxyGet, getWrappedProperty, hblocked, definedDefault]
  · simp [onResponseReceived, proxyGet, getWrappedProperty, hnone, definedDefault]
  · simp [channelResponseReceived, allowPath, plainCtor, proxyGet, getWrappedProperty,
      RealSocket.get, replayListeners_fst_url, replayProps_fst_url, mkRealSocket, hurl,
      Bag.init]

/-- Claim C10: `addEventListener` with a non-function callback changes
nothing in any proxy state. -/
theorem addEventListener_nonfunction_noop (wid : Nat) (entry : Option WrappedEntry)
    (ev cb fl : JSValue) (h : cb.isFunction = false) :
    proxyAddEventListener wid entry ev cb fl = entry := by
  simp [proxyAddEventListener, h]

/-- Witness for C10 on a pending proxy and a string callback. -/
theorem addEventListener_nonfunction_noop_witness :
    JSValue.isFunction (.string "not-a-function") = false ∧
    proxyAddEventListener 0 (some (.bag sampleBag)) (.string "message")
        (.string "not-a-function") (.boolean false) = some (.bag sampleBag) :=
  ⟨rfl, addEventListener_nonfunction_noop 0 _ _ _ _ rfl⟩

/-- Claim C1, counterexample: in variant B (`onResponseReceived`), a block
resolution does invoke the buffered error handler, yet the readyState
accessor afterwards reports 0, not CLOSED (3) — refuting the claim as
stated for that cited variant. -/
theorem blocked_readyState_counterexample :
    (onResponseReceived plainCtor sampleBag false).2
        = [Action.clearImgHandlers, Action.invokeHandler (.boundFunc 7 0) "error"] ∧
    proxyGet (some (onResponseReceived plainCtor sampleBag false).1) "readyState"
        = JSValue.number 0 ∧
    JSValue.number 0 ≠ JSValue.number 3 :=
  ⟨by decide, by decide, by decide⟩

/-- Claim C1 (amended): on a block resolution a buffered error handler is
invoked exactly once with a generic error event in both variants; in
variant A (`channelResponseReceived`) the readyState accessor reports
CLOSED (3) from then on and keeps doing so under any further writes or
listener additions, while variant B (`onResponseReceived`) leaves the bag
untouched, so readyState keeps its pending default. -/
theorem blocked_resolution_amended (ctor : WrappedCtor) (bag : Bag) (cb : JSValue)
    (hcb : getOwn bag.properties "onerror" = some cb) (htr : cb.truthy = true) :
    (channelResponseReceived ctor bag true).2 = [Action.invokeHandler cb "error"] ∧
    (onResponseReceived ctor bag false).2
      = [Action.clearImgHandlers, Action.invokeHandler cb "error"] ∧
    (onResponseReceived ctor bag false).1 = .bag bag ∧
    proxyGet (some (channelResponseReceived ctor bag true).1) "readyState"
      = JSValue.number 3 ∧
    ∀ (wid : Nat) (ops : List ProxyOp),
      proxyGet (applyOps wid (some (channelResponseReceived ctor bag true).1) ops)
          "readyState"
        = JSValue.number 3 := by
  have hacts : blockedErrorActions bag = [Action.invokeHandler cb "error"] := by
    simp [blockedErrorActions, hcb, htr]
  have hentry : (channelResponseReceived ctor bag true).1
      = .bag { bag with properties := setOwn bag.properties "readyState" (.number 3) } := rfl
  refine ⟨?_, ?_, rfl, ?_, ?_⟩
  · show blockedErrorActions bag = _
    rw [hacts]
  · show Action.clearImgHandlers :: blockedErrorActions bag = _
    rw [hacts]
  · rw [hentry]
    simp [proxyGet, getWrappedProperty, getOwn_setOwn_self]
  · intro wid ops
    obtain ⟨b', hb', hkey, _, _⟩ :=
      applyOps_bag wid ops (k := "readyState") (by decide)
        { bag with properties := setOwn bag.properties "readyState" (.number 3) }
    rw [hentry, hb']
    have hrs : getOwn b'.properties "readyState" = some (.number 3) := by
      rw [hkey, getOwn_setOwn_self]
    simp [proxyGet, getWrappedProperty, hrs]

/-- Witness for the amended C1 at a concrete bag with a buffered handler. -/
theorem blocked_resolution_amended_witness :
    getOwn sampleBag.properties "onerror" = some (.boundFunc 7 0) ∧
    JSValue.truthy (.boundFunc 7 0) = true ∧
    ((channelResponseReceived plainCtor sampleBag true).2
        = [Action.invokeHandler (.boundFunc 7 0) "error"] ∧
      (onResponseReceived plainCtor sampleBag false).2
        = [Action.clearImgHandlers, Action.invokeHandler (.boundFunc 7 0) "error"] ∧
      (onResponseReceived plainCtor sampleBag false).1 = .bag sampleBag ∧
      proxyGet (some (channelResponseReceived plainCtor sampleBag true).1) "readyState"
        = JSValue.number 3 ∧
      ∀ (wid : Nat) (ops : List ProxyOp),
        proxyGet (applyOps wid (some (channelResponseReceived plainCtor sampleBag true).1) ops)
            "readyState"
          = JSValue.number 3) :=
  ⟨rfl, rfl, blocked_resolution_amended plainCtor sampleBag (.boundFunc 7 0) rfl rfl⟩

/-- Claim C3, counterexample: with the page on https: and a url beginning
with "ws:", a throwing native constructor in the mixed-content pre-check
propagates out of the wrapper constructor (the `new Wrapped` at the top of
the constructor is not inside a `try`/`catch`). -/
theorem constructor_throw_counterexample :
    wsConstructor throwingCtor "https:" "ws://example.com/" JSValue.undefined
      = Except.error JsException.wrappedCtorThrow := by
  decide

/-- Claim C3 (amended): the wrapper constructor lets an exception escape
exactly on the mixed-content pre-check path — page protocol https:, url
beginning with "ws:", and the underlying native constructor throwing; on
every other input it returns normally, so every other failure path degrades
to a socket that never connects. -/
theorem constructor_no_throw_amended (ctor : WrappedCtor) (locationProtocol url : String)
    (protocols : JSValue) :
    (∃ e, wsConstructor ctor locationProtocol url protocols = Except.error e) ↔
      locationProtocol = "https:" ∧ jsLastIndexOfAtZero url "ws:" = 0 ∧
        ctor url protocols = none := by
  unfold wsConstructor
  by_cases h1 : locationProtocol = "https:" ∧ jsLastIndexOfAtZero url "ws:" = 0
  · rw [if_pos h1]
    cases hc : ctor url protocols with
    | none =>
        constructor
        · intro _
          exact ⟨h1.1, h1.2, rfl⟩
        · intro _
          exact ⟨.wrappedCtorThrow, rfl⟩
    | some ws =>
        constructor
        · rintro ⟨e, he⟩
          exact Except.noConfusion he
        · rintro ⟨_, _, hnone⟩
          exact Option.noConfusion hnone
  · rw [if_neg h1]
    constructor
    · rintro ⟨e, he⟩
      exact Except.noConfusion he
    · rintro ⟨ha, hb, _⟩
      exact absurd ⟨ha, hb⟩ h1

/-- Claim C8, counterexample: the string the source builds joins the origin
directly with `?url=` — it is not the origin followed by `/?url=` that the
spec states. -/
theorem probe_url_counterexample :
    probeUrl "https://example.com" "ws://a"
        = "https://example.com?url=ws%3A%2F%2Fa&ubofix=f41665f3028c7fd10eecf573336216d3" ∧
    probeUrl "https://example.com" "ws://a"
        ≠ specProbeUrl "https://example.com" "ws://a" :=
  ⟨by decide, by decide⟩

/-- Claim C8 (amended): for every target url, the probe request URL equals
the page's origin followed by `?url=` (no path slash) plus the URL-encoded
target plus `&ubofix=` plus the fixed token — proved against an
independent, per-octet reading of URL-encoding. -/
theorem probe_url_amended (origin url : String) :
    probeUrl origin url = specProbeUrlAmended origin url := by
  have h : ("&ubofix=" ++ "f41665f3028c7fd10eecf573336216d3" : String)
      = "&ubofix=f41665f3028c7fd10eecf573336216d3" := by decide
  unfold probeUrl specProbeUrlAmended
  rw [encodeURIComponent_eq_specUrlEncode]
  conv_rhs => rw [String.append_assoc]
  rw [h]

end CWW
